import Mathlib

/-!
Shallow embedding of the PartnerAlarmClock commitment contract
(src/unnamed/part_001, Solidity 0.8) and of the client-side creation-form
readiness check (src/unnamed/part_000, TypeScript).

The AlarmSchedule library and the BaseCommitment base contract are part of
this repository but are not among the provided source files; their
operations (schedule init/start, recordEntry, missedDeadlines, entries,
and the CommitmentStatus enumeration) are modelled from the specification
(spec sections 3, 4.1 and 4.2) and each such definition is marked
"Modelled from the spec". Everything else is translated directly from
the Solidity and TypeScript sources.

Machine integers: Solidity 0.8 uses checked arithmetic, which reverts on
overflow and underflow instead of wrapping, so uint values are modelled as
Nat. Every subtraction the contract performs is shown not to underflow
(the penalty is capped at the deposit), and the transfer primitive is
modelled as failing when the requested amount exceeds the contract's
ether balance, mirroring the revert of address.transfer.
-/

abbrev Addr := Nat

/-- Modelled from the spec (section 3): the commitment status enumeration
lives in the BaseCommitment base contract, which is not among the provided
sources. The source file uses the members INACTIVE, ACTIVE and CANCELLED;
the spec names the terminal settled state SETTLED, which corresponds to
the CANCELLED member the code assigns at the end of withdraw. -/
inductive CommitmentStatus
  | INACTIVE
  | ACTIVE
  | CANCELLED
  deriving DecidableEq, Repr

/-- Error kinds. The first six name the require-revert strings appearing in
src/unnamed/part_001; the last three are modelled from the spec (sections
4.2 and 7) for the AlarmSchedule operations missing from the sources, and
for the revert of the value-transfer primitive. -/
inductive Err
  | ONLY_PLAYER_ACTION
  | ALREADY_STARTED
  | INSUFFICIENT_FUNDS_SENT
  | ONLY_PLAYER_2_CAN_START
  | NOT_ACTIVE
  | INVALID_PLAYER
  | SCHEDULE_ALREADY_STARTED
  | NO_OPEN_WINDOW
  | TRANSFER_FAILED
  deriving DecidableEq, Repr

/-- Modelled from the spec (sections 3 and 4.2): the per-participant
AlarmSchedule state. The pattern fields mirror the arguments the contract
passes to AlarmSchedule.init; startTime is None before activation;
confirmed holds the occurrence indices with a recorded confirmation,
each at most once. -/
structure Schedule where
  alarmTime : Nat
  alarmDays : List Nat
  submissionWindow : Nat
  timezoneOffset : Int
  startTime : Option Int
  confirmed : List Int
  deriving DecidableEq, Repr

/-- Modelled from the spec (section 4.1): the absolute close instant of the
occurrence anchored at a calendar day: absoluteMidnight(day) + timeOfDay
minus timezoneOffset. Days are numbered as consecutive integers. -/
def Schedule.windowClose (sched : Schedule) (day : Int) : Int :=
  day * 86400 + (sched.alarmTime : Int) - sched.timezoneOffset

/-- Modelled from the spec (section 4.1): open = close - submissionWindow. -/
def Schedule.windowOpen (sched : Schedule) (day : Int) : Int :=
  sched.windowClose day - (sched.submissionWindow : Int)

/-- Modelled from the spec (section 4.1): the weekday label (1..7) of a
calendar day index, with day 0 assigned label 1. -/
def weekdayOf (day : Int) : Nat :=
  (day % 7).toNat + 1

/-- Modelled from the spec (section 3): membership of a day's weekday in the
active-day set. -/
def Schedule.isActiveDay (sched : Schedule) (day : Int) : Bool :=
  sched.alarmDays.contains (weekdayOf day)

/-- Modelled from the spec (section 4.1, occurrencesSince): the day anchors
of the occurrences elapsed between startTime and now — active weekdays
whose close instant lies in the half-open interval from startTime to now.
An empty list before the schedule is started. -/
def Schedule.elapsedOccurrences (sched : Schedule) (now : Int) : List Int :=
  match sched.startTime with
  | none => []
  | some st =>
    let lo := Int.fdiv (st + sched.timezoneOffset - (sched.alarmTime : Int)) 86400
    let len := (now - st).toNat / 86400 + 2
    ((List.range len).map (fun k => lo + (k : Int))).filter (fun d =>
      sched.isActiveDay d &&
      decide (st ≤ sched.windowClose d) &&
      decide (sched.windowClose d < now))

/-- Modelled from the spec (section 4.2): the occurrence whose submission
window contains the instant now, when one exists; none before the schedule
is started or outside every open window. The occurrence index is its day
anchor, deterministic and increasing with calendar time (section 4.1). -/
def Schedule.containingOccurrence (sched : Schedule) (now : Int) : Option Int :=
  match sched.startTime with
  | none => none
  | some st =>
    let lo := Int.fdiv (now + sched.timezoneOffset - (sched.alarmTime : Int)) 86400
    let len := sched.submissionWindow / 86400 + 2
    (((List.range len).map (fun k => lo + (k : Int))).filter (fun d =>
      sched.isActiveDay d &&
      decide (sched.windowOpen d ≤ now) &&
      decide (now ≤ sched.windowClose d) &&
      decide (st ≤ sched.windowClose d))).head?

/-- Modelled from the spec (section 4.2, recordConfirmation): outside any
open window the call fails with NoOpenWindow; inside a window the
occurrence's index is inserted into the confirmed set, idempotently (no
error and no double count on re-confirmation). -/
def Schedule.recordEntry (sched : Schedule) (now : Int) : Except Err Schedule :=
  match sched.containingOccurrence now with
  | none => .error .NO_OPEN_WINDOW
  | some d =>
    if sched.confirmed.contains d then .ok sched
    else .ok { sched with confirmed := d :: sched.confirmed }

/-- Modelled from the spec (section 4.2): start sets startTime exactly once
and fails with AlreadyStarted when it is already set. -/
def Schedule.start (sched : Schedule) (now : Int) : Except Err Schedule :=
  match sched.startTime with
  | some _ => .error .SCHEDULE_ALREADY_STARTED
  | none => .ok { sched with startTime := some now }

/-- Modelled from the spec (section 4.2, missedCount): the number of elapsed
occurrences minus the number of elapsed occurrences carrying a
confirmation. -/
def Schedule.missedCount (sched : Schedule) (now : Int) : Nat :=
  (sched.elapsedOccurrences now).length -
    ((sched.elapsedOccurrences now).filter
      (fun d => sched.confirmed.contains d)).length

/-- Modelled from the spec (section 4.2, confirmedCount): the size of the
confirmed set. -/
def Schedule.entries (sched : Schedule) : Nat :=
  sched.confirmed.length

/-- One player record of the contract: a schedule and a deposited balance
(struct Player of src/unnamed/part_001). -/
structure Player where
  schedule : Schedule
  depositAmount : Nat
  deriving DecidableEq, Repr

/-- Storage of the PartnerAlarmClock contract (src/unnamed/part_001),
together with the contract's ether balance. The players mapping is a total
function from addresses, as in Solidity. -/
structure PartnerAlarmClock where
  status : CommitmentStatus
  alarmTime : Nat
  alarmActiveDays : List Nat
  submissionWindow : Nat
  timezoneOffset : Int
  betAmount : Nat
  player1 : Addr
  player2 : Addr
  missedAlarmPenalty : Nat
  players : Addr → Player
  contractBalance : Nat

/-- Pointwise update of the players mapping at one address. -/
def updateMap (f : Addr → Player) (a : Addr) (v : Player) : Addr → Player :=
  fun x => if x = a then v else f x

/-- The onlyPlayer modifier's condition (src/unnamed/part_001 lines 74-80):
the sender is player1 or player2. -/
def onlyPlayer (s : PartnerAlarmClock) (sender : Addr) : Bool :=
  sender == s.player1 || sender == s.player2

/-- getPenaltyAmount (src/unnamed/part_001 lines 163-170): the missed
deadline count times the per-miss penalty, capped at the player's
deposit. -/
def PartnerAlarmClock.getPenaltyAmount (s : PartnerAlarmClock)
    (player : Addr) (now : Int) : Nat :=
  let numMissedDeadlines := (s.players player).schedule.missedCount now
  let penaltyVal := numMissedDeadlines * s.missedAlarmPenalty
  if penaltyVal > (s.players player).depositAmount then
    (s.players player).depositAmount
  else
    penaltyVal

/-- getPlayerBalance (src/unnamed/part_001 lines 159-161). -/
def PartnerAlarmClock.getPlayerBalance (s : PartnerAlarmClock)
    (player : Addr) (now : Int) : Nat :=
  (s.players player).depositAmount - s.getPenaltyAmount player now

/-- missedDeadlines view (src/unnamed/part_001 lines 118-120). -/
def PartnerAlarmClock.missedDeadlines (s : PartnerAlarmClock)
    (player : Addr) (now : Int) : Nat :=
  (s.players player).schedule.missedCount now

/-- numConfirmations view (src/unnamed/part_001 lines 122-124). -/
def PartnerAlarmClock.numConfirmations (s : PartnerAlarmClock)
    (player : Addr) : Nat :=
  (s.players player).schedule.entries

/-- One invocation of the external value-transfer primitive
(address.transfer) during withdraw, recording the recipient, the amount,
and a snapshot of the contract storage at the moment the primitive is
invoked (status and the two players' stored deposits). -/
structure TransferCall where
  recipient : Addr
  amount : Nat
  statusAtCall : CommitmentStatus
  player1DepositAtCall : Nat
  player2DepositAtCall : Nat
  deriving DecidableEq, Repr

/-- start (src/unnamed/part_001 lines 85-101): only callable while
INACTIVE, with msg.value at least betAmount, by player2; starts both
players' schedules, credits msg.value to player2's deposit, and sets
status ACTIVE. The requires appear in source order; msg.value is added to
the contract's ether balance on success. -/
def PartnerAlarmClock.start (s : PartnerAlarmClock) (sender : Addr)
    (value : Nat) (now : Int) : Except Err PartnerAlarmClock :=
  if s.status = CommitmentStatus.INACTIVE then
    if s.betAmount ≤ value then
      if sender = s.player2 then
        match (s.players s.player1).schedule.start now with
        | .error e => .error e
        | .ok sched1 =>
          let p1rec := { s.players s.player1 with schedule := sched1 }
          let s1 := { s with players := updateMap s.players s.player1 p1rec }
          match (s1.players s1.player2).schedule.start now with
          | .error e => .error e
          | .ok sched2 =>
            let p2rec := { s1.players s1.player2 with schedule := sched2 }
            let s2 := { s1 with players := updateMap s1.players s1.player2 p2rec }
            let p2dep := { s2.players s2.player2 with depositAmount := (s2.players s2.player2).depositAmount + value }
            .ok { s2 with
                    players := updateMap s2.players s2.player2 p2dep,
                    contractBalance := s2.contractBalance + value,
                    status := CommitmentStatus.ACTIVE }
      else .error .ONLY_PLAYER_2_CAN_START
    else .error .INSUFFICIENT_FUNDS_SENT
  else .error .ALREADY_STARTED

/-- addToBalance (src/unnamed/part_001 lines 103-107): onlyPlayer, requires
ACTIVE status and a valid player argument, then credits msg.value to the
SENDER's deposit (the players mapping is indexed by msg.sender on line
106, not by the player argument). -/
def PartnerAlarmClock.addToBalance (s : PartnerAlarmClock) (sender : Addr)
    (player : Addr) (value : Nat) : Except Err PartnerAlarmClock :=
  if onlyPlayer s sender then
    if s.status = CommitmentStatus.ACTIVE then
      if player = s.player1 ∨ player = s.player2 then
        let srec := { s.players sender with depositAmount := (s.players sender).depositAmount + value }
        .ok { s with
                players := updateMap s.players sender srec,
                contractBalance := s.contractBalance + value }
      else .error .INVALID_PLAYER
    else .error .NOT_ACTIVE
  else .error .ONLY_PLAYER_ACTION

/-- submitConfirmation (src/unnamed/part_001 lines 113-116): onlyPlayer,
then delegates to the sender's schedule recordEntry, propagating its
failure; there is no status check in the function itself. -/
def PartnerAlarmClock.submitConfirmation (s : PartnerAlarmClock)
    (sender : Addr) (now : Int) : Except Err PartnerAlarmClock :=
  if onlyPlayer s sender then
    match (s.players sender).schedule.recordEntry now with
    | .error e => .error e
    | .ok sched =>
      let srec := { s.players sender with schedule := sched }
      .ok { s with players := updateMap s.players sender srec }
  else .error .ONLY_PLAYER_ACTION

/-- The other player (src/unnamed/part_001 line 136). -/
def PartnerAlarmClock.otherOf (s : PartnerAlarmClock) (sender : Addr) : Addr :=
  if sender = s.player1 then s.player2 else s.player1

/-- senderPenalty and otherPlayerPenalty (src/unnamed/part_001 lines
138-143): initialized to zero and assigned from getPenaltyAmount only when
the status is ACTIVE. -/
def PartnerAlarmClock.penaltyIfActive (s : PartnerAlarmClock)
    (player : Addr) (now : Int) : Nat :=
  if s.status = CommitmentStatus.ACTIVE then s.getPenaltyAmount player now
  else 0

/-- otherPlayerWithdrawAmount (src/unnamed/part_001 lines 145-147): the
other player's deposit plus the sender's penalty minus the other player's
penalty. -/
def PartnerAlarmClock.otherWithdrawAmount (s : PartnerAlarmClock)
    (sender : Addr) (now : Int) : Nat :=
  (s.players (s.otherOf sender)).depositAmount + s.penaltyIfActive sender now
    - s.penaltyIfActive (s.otherOf sender) now

/-- Storage after src/unnamed/part_001 lines 149-150: the sender's deposit
is zeroed, then the other player's deposit is zeroed. -/
def PartnerAlarmClock.zeroedDeposits (s : PartnerAlarmClock)
    (sender : Addr) : PartnerAlarmClock :=
  let senderZeroed := { s.players sender with depositAmount := 0 }
  let s1 := { s with players := updateMap s.players sender senderZeroed }
  let otherZeroed := { s1.players (s.otherOf sender) with depositAmount := 0 }
  { s1 with players := updateMap s1.players (s.otherOf sender) otherZeroed }

/-- withdraw (src/unnamed/part_001 lines 135-157): onlyPlayer; penalties
are computed only when status is ACTIVE (there is no status requirement);
the other player is paid their deposit plus the sender's penalty minus
their own penalty; both stored deposits are zeroed (lines 149-150) before
the two transfers (lines 152-153); the sender is then paid the whole
remaining contract balance; finally the status is set to CANCELLED, after
the transfers, following the source line order (lines 155-156). Returns
the list of external transfer calls in the order they are made, each
carrying a snapshot of contract storage at the moment the transfer
primitive runs; the first transfer only changes the ether balance, not
the stored deposits or the status, so both snapshots read the storage
produced by lines 149-150. The transfer primitive reverts when the
requested amount exceeds the contract's ether balance. -/
def PartnerAlarmClock.withdraw (s : PartnerAlarmClock) (sender : Addr)
    (now : Int) : Except Err (List TransferCall × PartnerAlarmClock) :=
  if onlyPlayer s sender then
    if s.otherWithdrawAmount sender now ≤ (s.zeroedDeposits sender).contractBalance then
      .ok ([⟨s.otherOf sender,
             s.otherWithdrawAmount sender now,
             (s.zeroedDeposits sender).status,
             ((s.zeroedDeposits sender).players (s.zeroedDeposits sender).player1).depositAmount,
             ((s.zeroedDeposits sender).players (s.zeroedDeposits sender).player2).depositAmount⟩,
            ⟨sender,
             (s.zeroedDeposits sender).contractBalance - s.otherWithdrawAmount sender now,
             (s.zeroedDeposits sender).status,
             ((s.zeroedDeposits sender).players (s.zeroedDeposits sender).player1).depositAmount,
             ((s.zeroedDeposits sender).players (s.zeroedDeposits sender).player2).depositAmount⟩],
           { s.zeroedDeposits sender with
               contractBalance := 0,
               status := CommitmentStatus.CANCELLED })
    else .error .TRANSFER_FAILED
  else .error .ONLY_PLAYER_ACTION

/-- Discriminator for Except results. -/
def exceptIsOk {A : Type} (e : Except Err A) : Bool :=
  match e with
  | .ok _ => true
  | .error _ => false

/-- The reactive creation-form fields feeding the readiness check
(src/unnamed/part_000 lines 24-58). The connected account is its address
when present; numeric form fields are JavaScript numbers, modelled as
rationals; JavaScript truthiness of a string is non-emptiness. -/
structure AlarmCreationParams where
  account : Option String
  otherPlayer : String
  alarmDays : List Int
  alarmTime : String
  deposit : Rat
  missedAlarmPenalty : Rat
  submissionWindow : Rat
  timezoneOffset : Rat
  timezoneOffsetConfirmed : Bool

/-- isReady (src/unnamed/part_000 lines 61-75): the conjunction, in source
order, of a truthy connected address, positive submission window, a
counterparty different from the connected address, a non-empty alarm-day
list with every day between 1 and 7, a non-empty alarm time string, a
positive deposit, a positive missed-alarm penalty, a confirmed timezone
offset, and an offset between -12 and 12. -/
def isReady (p : AlarmCreationParams) : Bool :=
  match p.account with
  | none => false
  | some address =>
    (address ≠ "" : Bool) &&
    decide (0 < p.submissionWindow) &&
    (p.otherPlayer ≠ address : Bool) &&
    decide (0 < p.alarmDays.length) &&
    p.alarmDays.all (fun day => decide (1 ≤ day) && decide (day ≤ 7)) &&
    decide (0 < p.alarmTime.length) &&
    decide (0 < p.deposit) &&
    decide (0 < p.missedAlarmPenalty) &&
    p.timezoneOffsetConfirmed &&
    decide (-12 ≤ p.timezoneOffset) &&
    decide (p.timezoneOffset ≤ 12)

/-- Concrete schedule used by the witnesses: alarm at 07:00:00 local time
(25200 seconds), active on weekday 1, submission window 1800 seconds, no
timezone offset, started at instant 0. -/
def schedA : Schedule :=
  { alarmTime := 25200, alarmDays := [1], submissionWindow := 1800,
    timezoneOffset := 0, startTime := some 0, confirmed := [] }

/-- The same schedule before being started. -/
def schedU : Schedule :=
  { schedA with startTime := none }

/-- Players mapping of the concrete active state: both players started,
each with a deposit of 10. -/
def activePlayers : Addr → Player := fun a =>
  if a = 1 then { schedule := schedA, depositAmount := 10 }
  else if a = 2 then { schedule := schedA, depositAmount := 10 }
  else { schedule := schedU, depositAmount := 0 }

/-- Concrete ACTIVE contract state used by the witnesses: players 1 and 2,
bet 10, per-miss penalty 3, contract balance equal to the deposit sum. -/
def sActive : PartnerAlarmClock :=
  { status := CommitmentStatus.ACTIVE, alarmTime := 25200,
    alarmActiveDays := [1], submissionWindow := 1800, timezoneOffset := 0,
    betAmount := 10, player1 := 1, player2 := 2, missedAlarmPenalty := 3,
    players := activePlayers, contractBalance := 20 }

/-- Players mapping of the concrete inactive state: unstarted schedules,
only player 1 funded. -/
def inactivePlayers : Addr → Player := fun a =>
  if a = 1 then { schedule := schedU, depositAmount := 10 }
  else { schedule := schedU, depositAmount := 0 }

/-- Concrete INACTIVE contract state, as produced by init: only player 1's
deposit recorded, schedules not started. -/
def sInactive : PartnerAlarmClock :=
  { sActive with
      status := CommitmentStatus.INACTIVE,
      players := inactivePlayers,
      contractBalance := 10 }

/-- Concrete creation-form parameters with every field valid. -/
def validParams : AlarmCreationParams :=
  { account := some "0xA", otherPlayer := "0xB", alarmDays := [1, 3],
    alarmTime := "07:00", deposit := 1, missedAlarmPenalty := 2,
    submissionWindow := 30, timezoneOffset := -5,
    timezoneOffsetConfirmed := true }

/-- The penalty never exceeds the player's deposit: shared helper used by
several theorems below. -/
theorem getPenaltyAmount_le_deposit (s : PartnerAlarmClock)
    (player : Addr) (now : Int) :
    s.getPenaltyAmount player now ≤ (s.players player).depositAmount := by
  unfold PartnerAlarmClock.getPenaltyAmount
  dsimp only
  split <;> omega

/-- C2: for every player and state, the applied penalty equals
min(balance, penaltyPerMiss * missedCount); in particular whenever the
product exceeds the deposit the returned penalty is exactly the deposit,
so a penalty never exceeds the deposit. -/
theorem getPenaltyAmount_eq_min (s : PartnerAlarmClock)
    (player : Addr) (now : Int) :
    s.getPenaltyAmount player now =
      min ((s.players player).depositAmount)
        ((s.players player).schedule.missedCount now * s.missedAlarmPenalty) := by
  unfold PartnerAlarmClock.getPenaltyAmount
  dsimp only
  split <;> omega

/-- C10: getPenaltyAmount is bounded by the player's deposit, so the
subtraction inside getPlayerBalance never underflows and the returned
balance, deposit minus penalty, is a well-defined non-negative value. -/
theorem getPlayerBalance_no_underflow (s : PartnerAlarmClock)
    (player : Addr) (now : Int) :
    s.getPenaltyAmount player now ≤ (s.players player).depositAmount ∧
    s.getPlayerBalance player now =
      (s.players player).depositAmount - s.getPenaltyAmount player now := by
  exact ⟨getPenaltyAmount_le_deposit s player now, rfl⟩

/-- The conditional penalty is also bounded by the player's deposit. -/
theorem penaltyIfActive_le (s : PartnerAlarmClock) (player : Addr) (now : Int) :
    s.penaltyIfActive player now ≤ (s.players player).depositAmount := by
  unfold PartnerAlarmClock.penaltyIfActive
  split
  · exact getPenaltyAmount_le_deposit s player now
  · exact Nat.zero_le _

/-- For a sender passing the onlyPlayer check, the sender's and the other
player's deposits sum to the two players' deposits. -/
theorem deposit_sum_eq (s : PartnerAlarmClock) (sender : Addr)
    (hp : onlyPlayer s sender = true) :
    (s.players sender).depositAmount +
      (s.players (s.otherOf sender)).depositAmount =
    (s.players s.player1).depositAmount +
      (s.players s.player2).depositAmount := by
  unfold PartnerAlarmClock.otherOf
  by_cases hs : sender = s.player1
  · rw [if_pos hs, hs]
  · have hs2 : sender = s.player2 := by
      simp only [onlyPlayer, Bool.or_eq_true, beq_iff_eq] at hp
      exact hp.resolve_left hs
    rw [if_neg hs, hs2, Nat.add_comm]

/-- The storage after zeroing both deposits keeps the status, the player
addresses and the ether balance. -/
theorem zeroedDeposits_fields (s : PartnerAlarmClock) (sender : Addr) :
    (s.zeroedDeposits sender).status = s.status ∧
    (s.zeroedDeposits sender).player1 = s.player1 ∧
    (s.zeroedDeposits sender).player2 = s.player2 ∧
    (s.zeroedDeposits sender).contractBalance = s.contractBalance :=
  ⟨rfl, rfl, rfl, rfl⟩

/-- After lines 149-150 both players' stored deposits are zero (for a
sender passing the onlyPlayer check). -/
theorem zeroedDeposits_deposits (s : PartnerAlarmClock) (sender : Addr)
    (hp : onlyPlayer s sender = true) :
    ((s.zeroedDeposits sender).players s.player1).depositAmount = 0 ∧
    ((s.zeroedDeposits sender).players s.player2).depositAmount = 0 := by
  unfold PartnerAlarmClock.zeroedDeposits PartnerAlarmClock.otherOf updateMap
  by_cases hs : sender = s.player1
  · refine ⟨?_, ?_⟩
    · simp [hs]
      split <;> simp
    · simp [hs]
  · have hs2 : sender = s.player2 := by
      simp only [onlyPlayer, Bool.or_eq_true, beq_iff_eq] at hp
      exact hp.resolve_left hs
    refine ⟨?_, ?_⟩
    · simp [hs2]
      split <;> simp_all
    · simp [hs2]
      split <;> simp_all

/-- The amount paid to the other player never exceeds the contract balance
when the balance covers both deposits, so the first transfer succeeds. -/
theorem otherWithdrawAmount_le (s : PartnerAlarmClock) (sender : Addr)
    (now : Int) (hp : onlyPlayer s sender = true)
    (hbal : s.contractBalance =
      (s.players s.player1).depositAmount +
        (s.players s.player2).depositAmount) :
    s.otherWithdrawAmount sender now ≤ s.contractBalance := by
  have hsum := deposit_sum_eq s sender hp
  have hpen := penaltyIfActive_le s sender now
  unfold PartnerAlarmClock.otherWithdrawAmount
  omega

/-- Master description of a successful withdraw: for a sender passing the
onlyPlayer check, in a state whose ether balance equals the deposit sum,
withdraw returns the two transfers — first to the other player for
otherPlayerWithdrawAmount, then to the sender for the remaining balance —
both invoked on storage with both deposits already zeroed but the status
still unchanged, and the final state has status CANCELLED and zero
balance. -/
theorem withdraw_ok_eq (s : PartnerAlarmClock) (sender : Addr) (now : Int)
    (hp : onlyPlayer s sender = true)
    (hbal : s.contractBalance =
      (s.players s.player1).depositAmount +
        (s.players s.player2).depositAmount) :
    s.withdraw sender now =
      .ok ([⟨s.otherOf sender, s.otherWithdrawAmount sender now, s.status, 0, 0⟩,
            ⟨sender, s.contractBalance - s.otherWithdrawAmount sender now,
             s.status, 0, 0⟩],
           { s.zeroedDeposits sender with
               contractBalance := 0,
               status := CommitmentStatus.CANCELLED }) := by
  have hz := zeroedDeposits_deposits s sender hp
  have hle : s.otherWithdrawAmount sender now ≤
      (s.zeroedDeposits sender).contractBalance :=
    otherWithdrawAmount_le s sender now hp hbal
  unfold PartnerAlarmClock.withdraw
  rw [hp]
  rw [if_pos rfl, if_pos hle]
  have e1 : (s.zeroedDeposits sender).player1 = s.player1 := rfl
  have e2 : (s.zeroedDeposits sender).player2 = s.player2 := rfl
  have e3 : (s.zeroedDeposits sender).status = s.status := rfl
  have e4 : (s.zeroedDeposits sender).contractBalance = s.contractBalance := rfl
  rw [e1, e2, hz.1, hz.2, e3, e4]

/-- C1: settlement is zero-sum. For every state whose ether balance equals
the two players' recorded deposits (the balance invariant maintained by
init, start and addToBalance) and every caller passing the onlyPlayer
check, withdraw succeeds and the amount paid to the caller plus the amount
paid to the other player equals the sum of the two players' pre-settlement
deposits: no value is created or destroyed. -/
theorem withdraw_zero_sum (s : PartnerAlarmClock) (sender : Addr) (now : Int)
    (hp : onlyPlayer s sender = true)
    (hbal : s.contractBalance =
      (s.players s.player1).depositAmount +
        (s.players s.player2).depositAmount) :
    ∃ tOther tCaller sFin,
      s.withdraw sender now = .ok ([tOther, tCaller], sFin) ∧
      tOther.recipient = s.otherOf sender ∧
      tCaller.recipient = sender ∧
      tCaller.amount + tOther.amount =
        (s.players s.player1).depositAmount +
          (s.players s.player2).depositAmount := by
  refine ⟨_, _, _, withdraw_ok_eq s sender now hp hbal, rfl, rfl, ?_⟩
  have hle := otherWithdrawAmount_le s sender now hp hbal
  dsimp only
  omega

/-- Witness for C1: the zero-sum theorem applied to the concrete active
state, with both hypotheses checked by evaluation. -/
theorem withdraw_zero_sum_witness :
    (onlyPlayer sActive 1 = true) ∧
    (sActive.contractBalance =
      (sActive.players sActive.player1).depositAmount +
        (sActive.players sActive.player2).depositAmount) ∧
    (∃ tOther tCaller sFin,
      sActive.withdraw 1 0 = .ok ([tOther, tCaller], sFin) ∧
      tOther.recipient = sActive.otherOf 1 ∧
      tCaller.recipient = 1 ∧
      tCaller.amount + tOther.amount =
        (sActive.players sActive.player1).depositAmount +
          (sActive.players sActive.player2).depositAmount) :=
  ⟨by decide, by decide, withdraw_zero_sum sActive 1 0 (by decide) (by decide)⟩

/-- C3: on settlement from an ACTIVE state (with the balance invariant),
the non-calling player is paid exactly their deposit plus the caller's
penalty minus their own penalty, the caller is paid exactly the remainder
(their deposit minus their penalty plus the other's penalty), both stored
deposits are zeroed, and the status moves to the terminal settled state
(the spec's SETTLED, named CANCELLED in the source). -/
theorem withdraw_settlement_spec (s : PartnerAlarmClock) (sender : Addr)
    (now : Int)
    (hp : onlyPlayer s sender = true)
    (hact : s.status = CommitmentStatus.ACTIVE)
    (hbal : s.contractBalance =
      (s.players s.player1).depositAmount +
        (s.players s.player2).depositAmount) :
    ∃ sFin,
      s.withdraw sender now =
        .ok ([⟨s.otherOf sender,
               (s.players (s.otherOf sender)).depositAmount
                 + s.getPenaltyAmount sender now
                 - s.getPenaltyAmount (s.otherOf sender) now,
               s.status, 0, 0⟩,
              ⟨sender,
               (s.players sender).depositAmount
                 - s.getPenaltyAmount sender now
                 + s.getPenaltyAmount (s.otherOf sender) now,
               s.status, 0, 0⟩], sFin) ∧
      (sFin.players s.player1).depositAmount = 0 ∧
      (sFin.players s.player2).depositAmount = 0 ∧
      sFin.status = CommitmentStatus.CANCELLED := by
  have hz := zeroedDeposits_deposits s sender hp
  have hpen1 : s.penaltyIfActive sender now = s.getPenaltyAmount sender now := by
    unfold PartnerAlarmClock.penaltyIfActive
    rw [if_pos hact]
  have hpen2 : s.penaltyIfActive (s.otherOf sender) now =
      s.getPenaltyAmount (s.otherOf sender) now := by
    unfold PartnerAlarmClock.penaltyIfActive
    rw [if_pos hact]
  have hamt : s.otherWithdrawAmount sender now =
      (s.players (s.otherOf sender)).depositAmount
        + s.getPenaltyAmount sender now
        - s.getPenaltyAmount (s.otherOf sender) now := by
    unfold PartnerAlarmClock.otherWithdrawAmount
    rw [hpen1, hpen2]
  have hsum := deposit_sum_eq s sender hp
  have hle1 := getPenaltyAmount_le_deposit s sender now
  have hle2 := getPenaltyAmount_le_deposit s (s.otherOf sender) now
  have hamt2 : s.contractBalance - s.otherWithdrawAmount sender now =
      (s.players sender).depositAmount
        - s.getPenaltyAmount sender now
        + s.getPenaltyAmount (s.otherOf sender) now := by
    rw [hamt, hbal]
    omega
  refine ⟨{ s.zeroedDeposits sender with
              contractBalance := 0,
              status := CommitmentStatus.CANCELLED }, ?_, hz.1, hz.2, rfl⟩
  rw [withdraw_ok_eq s sender now hp hbal, hamt2, hamt]

/-- Witness for C3 at the concrete active state. -/
theorem withdraw_settlement_spec_witness :
    (onlyPlayer sActive 1 = true) ∧
    (sActive.status = CommitmentStatus.ACTIVE) ∧
    (sActive.contractBalance =
      (sActive.players sActive.player1).depositAmount +
        (sActive.players sActive.player2).depositAmount) ∧
    (∃ sFin,
      sActive.withdraw 1 0 =
        .ok ([⟨sActive.otherOf 1,
               (sActive.players (sActive.otherOf 1)).depositAmount
                 + sActive.getPenaltyAmount 1 0
                 - sActive.getPenaltyAmount (sActive.otherOf 1) 0,
               sActive.status, 0, 0⟩,
              ⟨1,
               (sActive.players 1).depositAmount
                 - sActive.getPenaltyAmount 1 0
                 + sActive.getPenaltyAmount (sActive.otherOf 1) 0,
               sActive.status, 0, 0⟩], sFin) ∧
      (sFin.players sActive.player1).depositAmount = 0 ∧
      (sFin.players sActive.player2).depositAmount = 0 ∧
      sFin.status = CommitmentStatus.CANCELLED) :=
  ⟨by decide, by decide, by decide,
   withdraw_settlement_spec sActive 1 0 (by decide) (by decide) (by decide)⟩

/-- C5 counterexample: on the concrete active state, both external
transfer calls made by withdraw observe a storage snapshot whose status is
still ACTIVE — the status is updated to the terminal state only after the
transfers (source lines 152-156) — refuting the claim that the status is
set to the settled state strictly before any external value transfer. -/
theorem withdraw_status_at_transfer_cex :
    (match sActive.withdraw 1 0 with
      | .ok (ts, _) => ts.map (fun t => t.statusAtCall)
      | .error _ => []) =
    [CommitmentStatus.ACTIVE, CommitmentStatus.ACTIVE] := by
  decide

/-- C5 amended: during withdraw both stored deposits are zeroed strictly
before either external transfer is invoked, so a re-entrant call cannot
observe pre-settlement balances; the status, however, still holds its
pre-settlement value at both transfer calls and only becomes the terminal
CANCELLED state afterwards. -/
theorem withdraw_zeroes_before_transfers (s : PartnerAlarmClock)
    (sender : Addr) (now : Int)
    (hp : onlyPlayer s sender = true)
    (hbal : s.contractBalance =
      (s.players s.player1).depositAmount +
        (s.players s.player2).depositAmount) :
    ∃ tOther tCaller sFin,
      s.withdraw sender now = .ok ([tOther, tCaller], sFin) ∧
      tOther.player1DepositAtCall = 0 ∧
      tOther.player2DepositAtCall = 0 ∧
      tCaller.player1DepositAtCall = 0 ∧
      tCaller.player2DepositAtCall = 0 ∧
      tOther.statusAtCall = s.status ∧
      tCaller.statusAtCall = s.status ∧
      sFin.status = CommitmentStatus.CANCELLED ∧
      (sFin.players s.player1).depositAmount = 0 ∧
      (sFin.players s.player2).depositAmount = 0 :=
  ⟨_, _, _, withdraw_ok_eq s sender now hp hbal,
   rfl, rfl, rfl, rfl, rfl, rfl, rfl,
   (zeroedDeposits_deposits s sender hp).1,
   (zeroedDeposits_deposits s sender hp).2⟩

/-- Witness for the amended C5 at the concrete active state. -/
theorem withdraw_zeroes_before_transfers_witness :
    (onlyPlayer sActive 1 = true) ∧
    (sActive.contractBalance =
      (sActive.players sActive.player1).depositAmount +
        (sActive.players sActive.player2).depositAmount) ∧
    (∃ tOther tCaller sFin,
      sActive.withdraw 1 0 = .ok ([tOther, tCaller], sFin) ∧
      tOther.player1DepositAtCall = 0 ∧
      tOther.player2DepositAtCall = 0 ∧
      tCaller.player1DepositAtCall = 0 ∧
      tCaller.player2DepositAtCall = 0 ∧
      tOther.statusAtCall = sActive.status ∧
      tCaller.statusAtCall = sActive.status ∧
      sFin.status = CommitmentStatus.CANCELLED ∧
      (sFin.players sActive.player1).depositAmount = 0 ∧
      (sFin.players sActive.player2).depositAmount = 0) :=
  ⟨by decide, by decide,
   withdraw_zeroes_before_transfers sActive 1 0 (by decide) (by decide)⟩

/-- C4 counterexample: on the concrete INACTIVE state, withdraw by player 1
succeeds — the function has no status requirement (source lines 135-157)
— refuting the claim that settle is rejected with a NotActive error
whenever the status is INACTIVE and succeeds only when ACTIVE. -/
theorem withdraw_inactive_succeeds_cex :
    sInactive.status = CommitmentStatus.INACTIVE ∧
    exceptIsOk (sInactive.withdraw 1 0) = true := by
  decide

/-- C4 amended: confirming on a commitment whose schedule has not been
started (the state of every INACTIVE commitment) fails — with the
schedule-level no-open-window error, there being no status check in
submitConfirmation itself — while withdraw carries no status guard at
all: for any status whatsoever it succeeds for a participant whenever the
balance invariant holds, applying penalties only in the ACTIVE case. -/
theorem notActive_guard_amended (s : PartnerAlarmClock) (sender : Addr)
    (now : Int)
    (hp : onlyPlayer s sender = true)
    (hstart : (s.players sender).schedule.startTime = none)
    (hbal : s.contractBalance =
      (s.players s.player1).depositAmount +
        (s.players s.player2).depositAmount) :
    s.submitConfirmation sender now = .error .NO_OPEN_WINDOW ∧
    exceptIsOk (s.withdraw sender now) = true := by
  constructor
  · unfold PartnerAlarmClock.submitConfirmation Schedule.recordEntry
      Schedule.containingOccurrence
    rw [hp, hstart]
    rfl
  · rw [withdraw_ok_eq s sender now hp hbal]
    rfl

/-- Witness for the amended C4 at the concrete INACTIVE state. -/
theorem notActive_guard_amended_witness :
    (onlyPlayer sInactive 1 = true) ∧
    ((sInactive.players 1).schedule.startTime = none) ∧
    (sInactive.contractBalance =
      (sInactive.players sInactive.player1).depositAmount +
        (sInactive.players sInactive.player2).depositAmount) ∧
    (sInactive.submitConfirmation 1 0 = .error .NO_OPEN_WINDOW ∧
     exceptIsOk (sInactive.withdraw 1 0) = true) :=
  ⟨by decide, by decide, by decide,
   notActive_guard_amended sInactive 1 0 (by decide) (by decide) (by decide)⟩

/-- C6: full characterization of start on a well-formed inactive-style
state (distinct players, schedules not yet started, as established by
init). It fails with the already-started error when the status is not
INACTIVE (the spec's AlreadyActive), with the insufficient-funds error
when the sent value is below betAmount (the spec's InsufficientStake), and
with the only-player-2 error when the caller is not player2 (the spec's
WrongParticipant); when all three conditions hold it succeeds, starts both
players' schedules at the call instant, adds the sent value to player2's
deposit, and sets the status to ACTIVE. -/
theorem start_characterization (s : PartnerAlarmClock) (sender : Addr)
    (value : Nat) (now : Int)
    (hdist : s.player1 ≠ s.player2)
    (h1 : (s.players s.player1).schedule.startTime = none)
    (h2 : (s.players s.player2).schedule.startTime = none) :
    (s.status ≠ CommitmentStatus.INACTIVE →
      s.start sender value now = .error .ALREADY_STARTED) ∧
    (s.status = CommitmentStatus.INACTIVE → value < s.betAmount →
      s.start sender value now = .error .INSUFFICIENT_FUNDS_SENT) ∧
    (s.status = CommitmentStatus.INACTIVE → s.betAmount ≤ value →
      sender ≠ s.player2 →
      s.start sender value now = .error .ONLY_PLAYER_2_CAN_START) ∧
    (s.status = CommitmentStatus.INACTIVE → s.betAmount ≤ value →
      sender = s.player2 →
      ∃ s2, s.start sender value now = .ok s2 ∧
        (s2.players s.player1).schedule.startTime = some now ∧
        (s2.players s.player2).schedule.startTime = some now ∧
        (s2.players s.player2).depositAmount =
          (s.players s.player2).depositAmount + value ∧
        (s2.players s.player1).depositAmount =
          (s.players s.player1).depositAmount ∧
        s2.status = CommitmentStatus.ACTIVE ∧
        s2.contractBalance = s.contractBalance + value) := by
  have hd2 : s.player2 ≠ s.player1 := Ne.symm hdist
  refine ⟨?_, ?_, ?_, ?_⟩
  · intro h
    unfold PartnerAlarmClock.start
    rw [if_neg h]
  · intro h hv
    unfold PartnerAlarmClock.start
    rw [if_pos h, if_neg (by omega)]
  · intro h hv hs
    unfold PartnerAlarmClock.start
    rw [if_pos h, if_pos hv, if_neg hs]
  · intro h hv hs
    unfold PartnerAlarmClock.start Schedule.start
    rw [if_pos h, if_pos hv, if_pos hs]
    rw [h1]
    simp only [updateMap]
    rw [if_neg hd2, h2]
    refine ⟨_, rfl, ?_⟩
    simp [updateMap, hd2, hdist]

/-- Witness for C6 at the concrete INACTIVE state. -/
theorem start_characterization_witness :
    (sInactive.player1 ≠ sInactive.player2) ∧
    ((sInactive.players sInactive.player1).schedule.startTime = none) ∧
    ((sInactive.players sInactive.player2).schedule.startTime = none) ∧
    ((sInactive.status ≠ CommitmentStatus.INACTIVE →
      sInactive.start 2 10 0 = .error .ALREADY_STARTED) ∧
     (sInactive.status = CommitmentStatus.INACTIVE → 10 < sInactive.betAmount →
      sInactive.start 2 10 0 = .error .INSUFFICIENT_FUNDS_SENT) ∧
     (sInactive.status = CommitmentStatus.INACTIVE → sInactive.betAmount ≤ 10 →
      (2 : Addr) ≠ sInactive.player2 →
      sInactive.start 2 10 0 = .error .ONLY_PLAYER_2_CAN_START) ∧
     (sInactive.status = CommitmentStatus.INACTIVE → sInactive.betAmount ≤ 10 →
      (2 : Addr) = sInactive.player2 →
      ∃ s2, sInactive.start 2 10 0 = .ok s2 ∧
        (s2.players sInactive.player1).schedule.startTime = some 0 ∧
        (s2.players sInactive.player2).schedule.startTime = some 0 ∧
        (s2.players sInactive.player2).depositAmount =
          (sInactive.players sInactive.player2).depositAmount + 10 ∧
        (s2.players sInactive.player1).depositAmount =
          (sInactive.players sInactive.player1).depositAmount ∧
        s2.status = CommitmentStatus.ACTIVE ∧
        s2.contractBalance = sInactive.contractBalance + 10)) :=
  ⟨by decide, by decide, by decide,
   start_characterization sInactive 2 10 0 (by decide) (by decide) (by decide)⟩

/-- C7 counterexample: on the concrete active state (deposits 10 and 10),
player 1 calls addToBalance naming player 2 with a deposit of 5; the call
succeeds but the named participant's balance is unchanged at 10 while the
caller's balance becomes 15 — line 106 of the source credits
players[msg.sender], not the validated player argument — refuting the
claim that the deposit is added to the named participant's balance. -/
theorem addToBalance_credits_caller_cex :
    (match sActive.addToBalance 1 2 5 with
      | .ok s2 => some ((s2.players 2).depositAmount,
                        (s2.players 1).depositAmount)
      | .error _ => none) = some (10, 15) := by
  decide

/-- C7 amended: addToBalance requires ACTIVE status and a player argument
naming one of the two participants (and an onlyPlayer caller), and then
adds the deposited amount to the CALLER's balance — the validated player
argument is not the account credited — leaving every other address's
player record unchanged. -/
theorem addToBalance_credits_sender (s : PartnerAlarmClock)
    (sender player : Addr) (value : Nat)
    (hp : onlyPlayer s sender = true)
    (hact : s.status = CommitmentStatus.ACTIVE)
    (hvalid : player = s.player1 ∨ player = s.player2) :
    ∃ s2, s.addToBalance sender player value = .ok s2 ∧
      (s2.players sender).depositAmount =
        (s.players sender).depositAmount + value ∧
      (∀ a, a ≠ sender → s2.players a = s.players a) ∧
      s2.contractBalance = s.contractBalance + value := by
  unfold PartnerAlarmClock.addToBalance
  rw [hp, if_pos rfl, if_pos hact, if_pos hvalid]
  refine ⟨_, rfl, ?_, ?_, rfl⟩
  · simp [updateMap]
  · intro a ha
    simp [updateMap, ha]

/-- Witness for the amended C7 at the concrete active state. -/
theorem addToBalance_credits_sender_witness :
    (onlyPlayer sActive 1 = true) ∧
    (sActive.status = CommitmentStatus.ACTIVE) ∧
    ((2 : Addr) = sActive.player1 ∨ (2 : Addr) = sActive.player2) ∧
    (∃ s2, sActive.addToBalance 1 2 5 = .ok s2 ∧
      (s2.players 1).depositAmount = (sActive.players 1).depositAmount + 5 ∧
      (∀ a, a ≠ 1 → s2.players a = sActive.players a) ∧
      s2.contractBalance = sActive.contractBalance + 5) :=
  ⟨by decide, by decide, by decide,
   addToBalance_credits_sender sActive 1 2 5 (by decide) (by decide)
     (by decide)⟩

/-- The containing occurrence does not depend on the confirmed set. -/
theorem containingOccurrence_confirmed_irrel (sched : Schedule)
    (c : List Int) (t : Int) :
    Schedule.containingOccurrence { sched with confirmed := c } t =
      sched.containingOccurrence t := rfl

/-- Recording a confirmation twice inside the same open window: the first
call inserts the occurrence, the second call succeeds without changing
anything, and the confirmed count grows by exactly one. -/
theorem recordEntry_twice (sched : Schedule) (t1 t2 d : Int)
    (h1 : sched.containingOccurrence t1 = some d)
    (h2 : sched.containingOccurrence t2 = some d)
    (hnew : sched.confirmed.contains d = false) :
    ∃ sched2,
      sched.recordEntry t1 = .ok sched2 ∧
      sched2.recordEntry t2 = .ok sched2 ∧
      sched2.entries = sched.entries + 1 := by
  refine ⟨{ sched with confirmed := d :: sched.confirmed }, ?_, ?_, rfl⟩
  · unfold Schedule.recordEntry
    rw [h1]
    dsimp only
    rw [hnew]
    rfl
  · unfold Schedule.recordEntry
    rw [containingOccurrence_confirmed_irrel, h2]
    simp

/-- Lifting of a successful recordEntry through submitConfirmation. -/
theorem submitConfirmation_ok (s : PartnerAlarmClock) (sender : Addr)
    (t : Int) (sched2 : Schedule)
    (hp : onlyPlayer s sender = true)
    (hr : (s.players sender).schedule.recordEntry t = .ok sched2) :
    s.submitConfirmation sender t =
      .ok { s with players := updateMap s.players sender ({ s.players sender with schedule := sched2 }) } := by
  unfold PartnerAlarmClock.submitConfirmation
  rw [hp, if_pos rfl, hr]

/-- Reading the players mapping at the updated address yields the new
record. -/
theorem updateMap_self (f : Addr → Player) (a : Addr) (v : Player) :
    updateMap f a v a = v := by
  simp [updateMap]

/-- C8: confirmation is idempotent. For an onlyPlayer sender whose current
schedule has the same open window containing both instants (the same
occurrence index) and no confirmation recorded for it yet, submitting a
confirmation twice succeeds both times and increases numConfirmations by
exactly 1, not 2, with no error on the repeated confirmation. -/
theorem submitConfirmation_idempotent (s : PartnerAlarmClock)
    (sender : Addr) (t1 t2 d : Int)
    (hp : onlyPlayer s sender = true)
    (h1 : (s.players sender).schedule.containingOccurrence t1 = some d)
    (h2 : (s.players sender).schedule.containingOccurrence t2 = some d)
    (hnew : (s.players sender).schedule.confirmed.contains d = false) :
    ∃ sA sB,
      s.submitConfirmation sender t1 = .ok sA ∧
      sA.submitConfirmation sender t2 = .ok sB ∧
      sA.numConfirmations sender = s.numConfirmations sender + 1 ∧
      sB.numConfirmations sender = s.numConfirmations sender + 1 := by
  obtain ⟨sched2, hr1, hr2, hlen⟩ :=
    recordEntry_twice (s.players sender).schedule t1 t2 d h1 h2 hnew
  have hA := submitConfirmation_ok s sender t1 sched2 hp hr1
  have hApl : ({ s with players := updateMap s.players sender ({ s.players sender with schedule := sched2 }) } : PartnerAlarmClock).players sender = { s.players sender with schedule := sched2 } :=
    updateMap_self s.players sender _
  have hpA : onlyPlayer { s with players := updateMap s.players sender ({ s.players sender with schedule := sched2 }) } sender = true := hp
  have hr2A : (({ s with players := updateMap s.players sender ({ s.players sender with schedule := sched2 }) } : PartnerAlarmClock).players sender).schedule.recordEntry t2 = .ok sched2 := by
    rw [hApl]
    exact hr2
  have hB := submitConfirmation_ok _ sender t2 sched2 hpA hr2A
  refine ⟨_, _, hA, hB, ?_, ?_⟩
  · unfold PartnerAlarmClock.numConfirmations
    rw [hApl]
    exact hlen
  · unfold PartnerAlarmClock.numConfirmations
    dsimp only
    rw [updateMap_self]
    exact hlen

/-- Witness for C8 at the concrete active state: the instants 24000 and
25000 both lie in the open window of the day-0 occurrence (23400 to
25200). -/
theorem submitConfirmation_idempotent_witness :
    (onlyPlayer sActive 1 = true) ∧
    ((sActive.players 1).schedule.containingOccurrence 24000 = some 0) ∧
    ((sActive.players 1).schedule.containingOccurrence 25000 = some 0) ∧
    ((sActive.players 1).schedule.confirmed.contains 0 = false) ∧
    (∃ sA sB,
      sActive.submitConfirmation 1 24000 = .ok sA ∧
      sA.submitConfirmation 1 25000 = .ok sB ∧
      sA.numConfirmations 1 = sActive.numConfirmations 1 + 1 ∧
      sB.numConfirmations 1 = sActive.numConfirmations 1 + 1) :=
  ⟨by decide, by decide, by decide, by decide,
   submitConfirmation_idempotent sActive 1 24000 25000 0 (by decide)
     (by decide) (by decide) (by decide)⟩

/-- C9: the creation-form readiness flag is true only when every checked
creation parameter is valid — a connected account with a non-empty
address, a positive submission window, a counterparty different from the
caller's address, a non-empty alarm-day list with every day between 1 and
7, a positive deposit, a positive missed-alarm penalty, a confirmed
timezone offset, and an offset between -12 and +12 hours. -/
theorem isReady_necessary (p : AlarmCreationParams)
    (h : isReady p = true) :
    (∃ address, p.account = some address ∧ address ≠ "" ∧
      p.otherPlayer ≠ address) ∧
    0 < p.submissionWindow ∧
    p.alarmDays ≠ [] ∧
    (∀ day ∈ p.alarmDays, 1 ≤ day ∧ day ≤ 7) ∧
    0 < p.deposit ∧
    0 < p.missedAlarmPenalty ∧
    p.timezoneOffsetConfirmed = true ∧
    -12 ≤ p.timezoneOffset ∧ p.timezoneOffset ≤ 12 := by
  unfold isReady at h
  cases hacc : p.account with
  | none =>
    rw [hacc] at h
    exact absurd h (by simp)
  | some address =>
    rw [hacc] at h
    simp only [Bool.and_eq_true, decide_eq_true_eq, List.all_eq_true] at h
    obtain ⟨⟨⟨⟨⟨⟨⟨⟨⟨⟨hne, hwin⟩, hop⟩, hdays⟩, hall⟩, htime⟩, hdep⟩,
      hpen⟩, hconf⟩, hlo⟩, hhi⟩ := h
    refine ⟨⟨address, rfl, ?_, ?_⟩, hwin, ?_, ?_, hdep, hpen, hconf, hlo, hhi⟩
    · simpa using hne
    · simpa using hop
    · intro hempty
      rw [hempty] at hdays
      simp at hdays
    · intro day hday
      have := hall day hday
      simpa using this

/-- Witness for C9 at the concrete all-valid creation parameters. -/
theorem isReady_necessary_witness :
    (isReady validParams = true) ∧
    ((∃ address, validParams.account = some address ∧ address ≠ "" ∧
       validParams.otherPlayer ≠ address) ∧
     0 < validParams.submissionWindow ∧
     validParams.alarmDays ≠ [] ∧
     (∀ day ∈ validParams.alarmDays, 1 ≤ day ∧ day ≤ 7) ∧
     0 < validParams.deposit ∧
     0 < validParams.missedAlarmPenalty ∧
     validParams.timezoneOffsetConfirmed = true ∧
     -12 ≤ validParams.timezoneOffset ∧ validParams.timezoneOffset ≤ 12) :=
  ⟨by decide, isReady_necessary validParams (by decide)⟩
